import Mathlib

/-!
Shallow embedding of client/finality-grandpa/src/import.rs: the GRANDPA
block-import interceptor (`GrandpaBlockImport`).  The surrounding
collaborators (inner block importer, authority-set operations, aux-schema
encoder, justification verifier, finalizer) live outside this file in the
repository and are modelled as parameters in `ImportEnv`; the shared
mutable state touched by the importer (the authority set behind its write
lock, the voter-command channel, the consensus-changes log) is threaded
through `ImportState`.  Panics (`expect` / `assert!`) are modelled with
the `Outcome.panicked` constructor.
-/

/-- Block hashes, opaque in the source (`Block::Hash`), modelled as `Nat`. -/
abbrev BlockHash := Nat

/-- Block numbers (`NumberFor<Block>`), modelled as `Nat`. -/
abbrev BlockNumber := Nat

/-- Authority identifiers (`AuthorityId`), modelled as `Nat`. -/
abbrev AuthorityId := Nat

/-- Ordered list of `(voter id, weight)` pairs (`AuthorityList`). -/
abbrev AuthorityList := List (AuthorityId × Nat)

/-- Opaque justification bytes (`sp_runtime::Justification = Vec<u8>`). -/
abbrev Justification := List Nat

/-- Delay kind of a pending change (`crate::authorities::DelayKind`). -/
inductive DelayKind where
  | Finalized : DelayKind
  | Best (median_last_finalized : BlockNumber) : DelayKind
deriving DecidableEq

/-- A scheduled-change payload as carried in a digest
(`sp_finality_grandpa::ScheduledChange`). -/
structure ScheduledChange where
  next_authorities : AuthorityList
  delay : BlockNumber
deriving DecidableEq

/-- A pending authority-set change (`crate::authorities::PendingChange`). -/
structure PendingChange where
  next_authorities : AuthorityList
  delay : BlockNumber
  canon_height : BlockNumber
  canon_hash : BlockHash
  delay_kind : DelayKind
deriving DecidableEq

/-- Effective number of a pending change: `canon_height + delay`. -/
def PendingChange.effective_number (c : PendingChange) : BlockNumber :=
  c.canon_height + c.delay

/-- GRANDPA consensus log entries relevant to import
(`sp_finality_grandpa::ConsensusLog`); the constructors are named with a
`Log` suffix to avoid clashing with the `ScheduledChange` record above.
`OtherLog` stands for the remaining variants (OnDisabled, Pause, Resume). -/
inductive ConsensusLog where
  | ScheduledChangeLog (change : ScheduledChange)
  | ForcedChangeLog (median_last_finalized : BlockNumber) (change : ScheduledChange)
  | OtherLog
deriving DecidableEq

/-- A digest item.  `Consensus engine_id log` models a consensus digest
entry tagged with an engine id; `log = none` models a payload that fails
to decode as a GRANDPA `ConsensusLog` (ignored by the scanner). -/
inductive DigestItem where
  | Consensus (engine_id : Nat) (log : Option ConsensusLog)
  | Other
deriving DecidableEq

/-- The GRANDPA engine identifier (the four bytes `FRNK`). -/
def GRANDPA_ENGINE_ID : Nat := 0x46524e4b

/-- Model of `DigestItem::try_to(OpaqueDigestItemId::Consensus(id))`:
decode succeeds only for a consensus item under the matching engine id. -/
def DigestItem.try_to (item : DigestItem) (id : Nat) : Option ConsensusLog :=
  match item with
  | DigestItem.Consensus engine_id log => if engine_id = id then log else none
  | DigestItem.Other => none

/-- Model of `Digest::convert_first`: the first item on which the
conversion returns `some` wins. -/
def convert_first {α : Type} (digest : List DigestItem) (f : DigestItem → Option α) : Option α :=
  match digest with
  | [] => none
  | l :: rest =>
    match f l with
    | some a => some a
    | none => convert_first rest f

/-- A block header: number, parent hash, own hash and the digest log. -/
structure BlockHeader where
  number : BlockNumber
  parent_hash : BlockHash
  hash : BlockHash
  digest : List DigestItem
deriving DecidableEq

/-- Direct embedding of `find_scheduled_change` (import.rs lines 191-204). -/
def find_scheduled_change (header : BlockHeader) : Option ScheduledChange :=
  convert_first header.digest (fun l =>
    match l.try_to GRANDPA_ENGINE_ID with
    | some (ConsensusLog.ScheduledChangeLog change) => some change
    | _ => none)

/-- Direct embedding of `find_forced_change` (import.rs lines 206-219). -/
def find_forced_change (header : BlockHeader) : Option (BlockNumber × ScheduledChange) :=
  convert_first header.digest (fun l =>
    match l.try_to GRANDPA_ENGINE_ID with
    | some (ConsensusLog.ForcedChangeLog median change) => some (median, change)
    | _ => none)

/-- The authority-set record (spec section 3).  Its operations live in the
sibling `authorities` module; here only the fields read by import.rs are
kept, with the pending-change fork tree flattened to a list. -/
structure AuthoritySet where
  current_authorities : AuthorityList
  set_id : Nat
  pending_standard_changes : List PendingChange
  pending_forced_changes : List PendingChange
deriving DecidableEq

/-- Model of `AuthoritySet::current()`: `(set_id, current_authorities)`. -/
def AuthoritySet.current (s : AuthoritySet) : Nat × AuthorityList :=
  (s.set_id, s.current_authorities)

/-- The descriptor of a freshly forced authority set
(`crate::NewAuthoritySet`), delivered to the voter. -/
structure NewAuthoritySet where
  canon_number : BlockNumber
  canon_hash : BlockHash
  set_id : Nat
  authorities : AuthorityList
deriving DecidableEq

/-- Direct embedding of `AppliedChanges` (import.rs lines 148-152). -/
inductive AppliedChanges where
  | Standard (root : Bool)
  | Forced (new_set : NewAuthoritySet)
  | None
deriving DecidableEq

/-- Direct embedding of `AppliedChanges::needs_justification`
(import.rs lines 155-160). -/
def AppliedChanges.needs_justification : AppliedChanges → Bool
  | AppliedChanges.Standard _ => true
  | AppliedChanges.Forced _ => false
  | AppliedChanges.None => false

/-- Statement-side helper: whether an `AppliedChanges` is the `Forced`
variant. -/
def AppliedChanges.is_forced : AppliedChanges → Bool
  | AppliedChanges.Forced _ => true
  | _ => false

/-- The aux flags of `sp_consensus::ImportedAux` set by this component. -/
structure ImportedAux where
  clear_justification_requests : Bool
  needs_justification : Bool
  bad_justification : Bool
deriving DecidableEq

/-- The default (all-false) aux record. -/
def default_imported_aux : ImportedAux :=
  { clear_justification_requests := false
    needs_justification := false
    bad_justification := false }

/-- Model of `sp_consensus::ImportResult`. -/
inductive ImportResult where
  | Imported (aux : ImportedAux)
  | AlreadyInChain
  | KnownBad
  | UnknownParent
  | MissingState
deriving DecidableEq

/-- Model of `sp_blockchain::BlockStatus`. -/
inductive BlockStatus where
  | InChain
  | Unknown
deriving DecidableEq

/-- Model of `sp_consensus::BlockOrigin` (the variants that matter here). -/
inductive BlockOrigin where
  | NetworkInitialSync
  | NetworkBroadcast
  | Own
  | File
deriving DecidableEq

/-- Voter commands emitted over the command channel
(`crate::VoterCommand`). -/
inductive VoterCommand where
  | Pause (reason : String)
  | ChangeAuthorities (new_set : NewAuthoritySet)
deriving DecidableEq

/-- The only error variant constructed by import.rs
(`ConsensusError::ClientImport`). -/
inductive ConsensusError where
  | ClientImport (msg : String)
deriving DecidableEq

/-- The mutable block-import parameters seen by this component: header,
optional justification, origin, the auxiliary key/value side-channel and
the post hash (`block.post_hash()`). -/
structure BlockImportParams where
  header : BlockHeader
  justification : Option Justification
  origin : BlockOrigin
  auxiliary : List (List Nat × Option (List Nat))
  post_hash : BlockHash
deriving DecidableEq

/-- The error categories of `crate::Error`, each carrying its stringified
message (import.rs lines 676-685 map every one to `ClientImport`). -/
inductive GrandpaError where
  | Grandpa (e : String)
  | Network (e : String)
  | Blockchain (e : String)
  | Client (e : String)
  | Safety (e : String)
  | Signing (e : String)
  | Timer (e : String)
deriving DecidableEq

/-- The `ClientImport` message produced for each `crate::Error` category
(import.rs lines 677-684). -/
def GrandpaError.client_import_message : GrandpaError → String
  | GrandpaError.Grandpa e => e
  | GrandpaError.Network e => e
  | GrandpaError.Blockchain e => e
  | GrandpaError.Client e => e
  | GrandpaError.Safety e => e
  | GrandpaError.Signing e => e
  | GrandpaError.Timer e => e

/-- Outcome of `crate::environment::finalize_block`
(`Result<(), CommandOrError>`): a voter command to forward, an error, or
plain success. -/
inductive FinalizeResult where
  | VoterCommandResult (cmd : VoterCommand)
  | ErrorResult (e : GrandpaError)
  | Finalized
deriving DecidableEq

/-- Result of a step that can return, fail with a consensus error, or
panic (for `expect` and `assert!` in the source). -/
inductive Outcome (α : Type) where
  | ok (a : α)
  | err (e : ConsensusError)
  | panicked (msg : String)
deriving DecidableEq

/-- Whether an outcome is a panic. -/
def Outcome.is_panicked {α : Type} : Outcome α → Bool
  | Outcome.panicked _ => true
  | _ => false

/-- The collaborators of `GrandpaBlockImport`, all external to import.rs:
the inner client (status / info / header / import_block), the
descendant-oracle factory, the hard-fork index, the authority-set
operations of the sibling `authorities` module, the aux-schema encoder,
the justification verifier, and the finalizer. -/
structure ImportEnv where
  status : BlockHash → Except String BlockStatus
  info_finalized_number : BlockNumber
  header_by_number : BlockNumber → Except String (Option BlockHeader)
  inner_import : BlockImportParams → List (Nat × List Nat) → Except String ImportResult
  is_descendent_of : BlockHash × BlockHash → BlockHash → BlockHash → Bool
  hard_forks : BlockHash → Option PendingChange
  add_pending_change : AuthoritySet → PendingChange →
    (BlockHash → BlockHash → Bool) → Except String AuthoritySet
  apply_forced_changes : AuthoritySet → BlockHash → BlockNumber →
    (BlockHash → BlockHash → Bool) → Bool → Except String (Option (BlockNumber × AuthoritySet))
  enacts_standard_change : AuthoritySet → BlockHash → BlockNumber →
    (BlockHash → BlockHash → Bool) → Except String (Option Bool)
  update_authority_set_inserts : AuthoritySet → Option NewAuthoritySet →
    List (List Nat × List Nat)
  decode_and_verify_finalizes : Justification → BlockHash × BlockNumber → Nat →
    AuthorityList → Except String Justification
  finalize_block : BlockHash → BlockNumber → Justification → FinalizeResult

/-- The shared state touched by an import: the authority set behind its
write lock, the voter-command channel (as the list of commands sent, in
order), the consensus-changes log, the aux side-channel writes (a trace
of the `(key, Some(value))` pairs pushed into `block.auxiliary`), and
call counters for the inner importer and the justification handler. -/
structure ImportState where
  authority_set : AuthoritySet
  voter_commands : List VoterCommand
  consensus_changes : List (BlockNumber × BlockHash)
  aux_writes : List (List Nat × Option (List Nat))
  inner_import_calls : Nat
  justification_import_calls : Nat
deriving DecidableEq

/-- Direct embedding of the scoped `InnerGuard` of
`make_authorities_changes` (import.rs lines 271-303): the optional prior
snapshot and the live value behind the held write lock. -/
structure InnerGuard where
  old : Option AuthoritySet
  live : AuthoritySet
deriving DecidableEq

/-- Embedding of `InnerGuard::set_old` (import.rs lines 281-286): record
the prior set only if none is recorded yet ("ignore newer old changes"). -/
def InnerGuard.set_old (g : InnerGuard) (old : AuthoritySet) : InnerGuard :=
  match g.old with
  | some _ => g
  | none => { g with old := some old }

/-- Embedding of `InnerGuard::consume` (import.rs lines 288-294). -/
def InnerGuard.consume (g : InnerGuard) : Option (AuthoritySet × AuthoritySet) :=
  match g.old with
  | some old => some (old, g.live)
  | none => none

/-- Embedding of `Drop for InnerGuard` (import.rs lines 297-303): on an
early exit the recorded prior set, if any, is written back into the
shared state. -/
def InnerGuard.drop_restore (g : InnerGuard) (st : ImportState) : ImportState :=
  match g.old with
  | some old => { st with authority_set := old }
  | none => st

/-- Direct embedding of `PendingSetChanges` (import.rs lines 163-170):
the optional prior snapshot (`just_in_case`), the applied changes and the
pause flag.  The write lock held while `just_in_case` is `some` is
implicit in the sequential model. -/
structure PendingSetChanges where
  just_in_case : Option AuthoritySet
  applied_changes : AppliedChanges
  do_pause : Bool
deriving DecidableEq

/-- Embedding of dropping an un-defused `PendingSetChanges`
(`revert`, import.rs lines 174 and 183-189): restore the snapshot. -/
def PendingSetChanges.revert_state (p : PendingSetChanges) (st : ImportState) : ImportState :=
  match p.just_in_case with
  | some old => { st with authority_set := old }
  | none => st

/-- Embedding of `PendingSetChanges::defuse` (import.rs lines 176-180). -/
def PendingSetChanges.defuse (p : PendingSetChanges) : AppliedChanges × Bool :=
  (p.applied_changes, p.do_pause)

/-- Direct embedding of `check_new_change` (import.rs lines 230-260):
hard-fork override first, then the first forced change, then the first
scheduled change. -/
def check_new_change (hard_forks : BlockHash → Option PendingChange)
    (header : BlockHeader) (hash : BlockHash) : Option PendingChange :=
  match hard_forks hash with
  | some change => some change
  | none =>
    match find_forced_change header with
    | some (median_last_finalized, change) =>
      some { next_authorities := change.next_authorities
             delay := change.delay
             canon_height := header.number
             canon_hash := hash
             delay_kind := DelayKind.Best median_last_finalized }
    | none =>
      match find_scheduled_change header with
      | some change =>
        some { next_authorities := change.next_authorities
               delay := change.delay
               canon_height := header.number
               canon_hash := hash
               delay_kind := DelayKind.Finalized }
      | none => none

/-- Embedding of the tail of `make_authorities_changes`
(import.rs lines 388-406): consume the guard and, if the set was touched,
push the persisted authority-set representation (plus the new-set
descriptor for a forced change) into the auxiliary side-channel. -/
def make_authorities_changes_finish (env : ImportEnv) (st : ImportState)
    (block : BlockImportParams) (g : InnerGuard)
    (applied_changes : AppliedChanges) (do_pause : Bool) :
    Outcome PendingSetChanges × BlockImportParams × ImportState :=
  match g.consume with
  | some (old, authorities) =>
    let authorities_change : Option NewAuthoritySet :=
      match applied_changes with
      | AppliedChanges.Forced new_set => some new_set
      | AppliedChanges.Standard _ => none
      | AppliedChanges.None => none
    let inserts := (env.update_authority_set_inserts authorities authorities_change).map
      (fun kv => (kv.1, some kv.2))
    (Outcome.ok { just_in_case := some old
                  applied_changes := applied_changes
                  do_pause := do_pause },
     { block with auxiliary := block.auxiliary ++ inserts },
     { st with authority_set := g.live, aux_writes := st.aux_writes ++ inserts })
  | none =>
    (Outcome.ok { just_in_case := none
                  applied_changes := applied_changes
                  do_pause := do_pause },
     block,
     { st with authority_set := g.live })

/-- Embedding of the `applied_changes` block of `make_authorities_changes`
(import.rs lines 340-386): apply forced changes; on a new set use
`min(finalized, median)` as the canon number, panic if the header at that
number is missing, and record `Forced`; otherwise consult
`enacts_standard_change`. -/
def make_authorities_changes_apply (env : ImportEnv) (st : ImportState)
    (block : BlockImportParams) (hash : BlockHash) (initial_sync : Bool)
    (number : BlockNumber) (is_desc : BlockHash → BlockHash → Bool)
    (g : InnerGuard) (do_pause : Bool) :
    Outcome PendingSetChanges × BlockImportParams × ImportState :=
  match env.apply_forced_changes g.live hash number is_desc initial_sync with
  | Except.error e => (Outcome.err (ConsensusError.ClientImport e), block, g.drop_restore st)
  | Except.ok (some (median_last_finalized_number, new_set)) =>
    let set_id := (new_set.current).1
    let new_authorities_list := (new_set.current).2
    let best_finalized_number := env.info_finalized_number
    let canon_number := min best_finalized_number median_last_finalized_number
    match env.header_by_number canon_number with
    | Except.error e => (Outcome.err (ConsensusError.ClientImport e), block, g.drop_restore st)
    | Except.ok none =>
      (Outcome.panicked "the given block number is less or equal than the current best finalized number; current best finalized number must exist in chain; qed.",
       block, g.drop_restore st)
    | Except.ok (some header) =>
      let new_authority_set : NewAuthoritySet :=
        { canon_number := canon_number
          canon_hash := header.hash
          set_id := set_id
          authorities := new_authorities_list }
      let old := g.live
      let g2 := InnerGuard.set_old { g with live := new_set } old
      make_authorities_changes_finish env st block g2
        (AppliedChanges.Forced new_authority_set) do_pause
  | Except.ok none =>
    match env.enacts_standard_change g.live hash number is_desc with
    | Except.error e => (Outcome.err (ConsensusError.ClientImport e), block, g.drop_restore st)
    | Except.ok (some root) =>
      make_authorities_changes_finish env st block g (AppliedChanges.Standard root) do_pause
    | Except.ok none =>
      make_authorities_changes_finish env st block g AppliedChanges.None do_pause

/-- Direct embedding of `make_authorities_changes`
(import.rs lines 262-407): resolve the pending change, acquire the guard,
snapshot-then-add any pending change (setting `do_pause` for a
best-delayed change), then process forced and standard changes. -/
def make_authorities_changes (env : ImportEnv) (st : ImportState)
    (block : BlockImportParams) (hash : BlockHash) (initial_sync : Bool) :
    Outcome PendingSetChanges × BlockImportParams × ImportState :=
  let number := block.header.number
  let maybe_change := check_new_change env.hard_forks block.header hash
  let is_desc := env.is_descendent_of (hash, block.header.parent_hash)
  let g0 : InnerGuard := { old := none, live := st.authority_set }
  match maybe_change with
  | some change =>
    let g1 := g0.set_old g0.live
    let do_pause :=
      match change.delay_kind with
      | DelayKind.Best _ => true
      | DelayKind.Finalized => false
    match env.add_pending_change g1.live change is_desc with
    | Except.error e =>
      (Outcome.err (ConsensusError.ClientImport e), block, g1.drop_restore st)
    | Except.ok s1 =>
      make_authorities_changes_apply env st block hash initial_sync number is_desc
        { g1 with live := s1 } do_pause
  | none =>
    make_authorities_changes_apply env st block hash initial_sync number is_desc g0 false

/-- Direct embedding of the inherent `import_justification`
(import.rs lines 632-693): verify against the current set, finalize, and
on plain success assert that no change had to be enacted. -/
def import_justification (env : ImportEnv) (st : ImportState)
    (hash : BlockHash) (number : BlockNumber) (justification : Justification)
    (enacts_change : Bool) (initial_sync : Bool) : Outcome Unit × ImportState :=
  let st1 := { st with justification_import_calls := st.justification_import_calls + 1 }
  match env.decode_and_verify_finalizes justification (hash, number)
      st1.authority_set.set_id st1.authority_set.current_authorities with
  | Except.error e => (Outcome.err (ConsensusError.ClientImport e), st1)
  | Except.ok verified =>
    match env.finalize_block hash number verified with
    | FinalizeResult.VoterCommandResult cmd =>
      (Outcome.ok (), { st1 with voter_commands := st1.voter_commands ++ [cmd] })
    | FinalizeResult.ErrorResult e =>
      (Outcome.err (ConsensusError.ClientImport e.client_import_message), st1)
    | FinalizeResult.Finalized =>
      if enacts_change then
        (Outcome.panicked "returns Ok when no authority set change should be enacted; qed;", st1)
      else
        (Outcome.ok (), st1)

/-- Direct embedding of `JustificationImport::import_justification`
(import.rs lines 131-146): the sync-facing entry point delegates to the
inherent handler with `enacts_change = false` and `initial_sync = false`. -/
def justification_import_from_sync (env : ImportEnv) (st : ImportState)
    (hash : BlockHash) (number : BlockNumber) (justification : Justification) :
    Outcome Unit × ImportState :=
  import_justification env st hash number justification false false

/-- Embedding of the post-import tail of `import_block`
(import.rs lines 475-553): defuse the guard, send `Pause` and
`ChangeAuthorities` in order, drop the justification on
`Standard(false)`, and process the remaining justification. -/
def import_block_post (env : ImportEnv) (st : ImportState)
    (hash : BlockHash) (number : BlockNumber)
    (pending_changes : PendingSetChanges) (aux : ImportedAux)
    (justification : Option Justification) (enacts_consensus_change : Bool)
    (initial_sync : Bool) : Outcome ImportResult × ImportState :=
  let dp := pending_changes.defuse
  let applied_changes := dp.1
  let do_pause := dp.2
  let st1 :=
    if do_pause then
      { st with voter_commands :=
          st.voter_commands ++ [VoterCommand.Pause "Forced change scheduled after inactivity"] }
    else st
  let needs_justification := applied_changes.needs_justification
  let step5 :=
    match applied_changes with
    | AppliedChanges.Forced new_set =>
      ({ aux with clear_justification_requests := true }, justification,
       { st1 with voter_commands := st1.voter_commands ++ [VoterCommand.ChangeAuthorities new_set] })
    | AppliedChanges.Standard false => (aux, none, st1)
    | _ => (aux, justification, st1)
  let imported_aux := step5.1
  let justification1 := step5.2.1
  let st2 := step5.2.2
  match justification1 with
  | some j =>
    let res := import_justification env st2 hash number j needs_justification initial_sync
    match res.1 with
    | Outcome.ok _ => (Outcome.ok (ImportResult.Imported imported_aux), res.2)
    | Outcome.panicked m => (Outcome.panicked m, res.2)
    | Outcome.err _ =>
      if needs_justification || enacts_consensus_change then
        (Outcome.ok (ImportResult.Imported
          { imported_aux with bad_justification := true, needs_justification := true }), res.2)
      else
        (Outcome.ok (ImportResult.Imported imported_aux), res.2)
  | none =>
    let imported_aux2 :=
      if needs_justification then
        { imported_aux with needs_justification := true }
      else imported_aux
    let st3 :=
      if enacts_consensus_change then
        { st2 with consensus_changes := st2.consensus_changes ++ [(number, hash)] }
      else st2
    (Outcome.ok (ImportResult.Imported imported_aux2), st3)

/-- Direct embedding of `import_block` (import.rs lines 425-554): de-dup
on status, resolve authority-set changes, strip the justification, run
the inner importer (reverting on any non-`Imported` result), then emit
voter signals and process the justification. -/
def import_block (env : ImportEnv) (block : BlockImportParams)
    (new_cache : List (Nat × List Nat)) (st : ImportState) :
    Outcome ImportResult × ImportState :=
  let hash := block.post_hash
  let number := block.header.number
  match env.status hash with
  | Except.ok BlockStatus.InChain => (Outcome.ok ImportResult.AlreadyInChain, st)
  | Except.error e => (Outcome.err (ConsensusError.ClientImport e), st)
  | Except.ok BlockStatus.Unknown =>
    let initial_sync := decide (block.origin = BlockOrigin.NetworkInitialSync)
    match make_authorities_changes env st block hash initial_sync with
    | (Outcome.err e, _, st1) => (Outcome.err e, st1)
    | (Outcome.panicked m, _, st1) => (Outcome.panicked m, st1)
    | (Outcome.ok pending_changes, block1, st1) =>
      let justification := block1.justification
      let block2 := { block1 with justification := none }
      let enacts_consensus_change := !new_cache.isEmpty
      let st2 := { st1 with inner_import_calls := st1.inner_import_calls + 1 }
      match env.inner_import block2 new_cache with
      | Except.error e =>
        (Outcome.err (ConsensusError.ClientImport e), pending_changes.revert_state st2)
      | Except.ok (ImportResult.Imported aux) =>
        import_block_post env st2 hash number pending_changes aux justification
          enacts_consensus_change initial_sync
      | Except.ok r =>
        (Outcome.ok r, pending_changes.revert_state st2)

/-- Statement-side helper: whether two pending changes sit on the same
fork line under the given descendant oracle. -/
def same_fork (a b : PendingChange) (is_desc : BlockHash → BlockHash → Bool) : Bool :=
  a.canon_hash == b.canon_hash || is_desc a.canon_hash b.canon_hash ||
    is_desc b.canon_hash a.canon_hash

/-- Modelled from the spec: `add_pending_change` of the sibling
authority-set module (spec section 4.2), whose source is not in the
supplied tree.  It inserts the change into the tree matching its delay
kind and fails with a duplicate-change error when a conflicting change
already exists on the same fork at or before the effective number
(invariants I1 and I2). -/
def spec_add_pending_change (s : AuthoritySet) (change : PendingChange)
    (is_desc : BlockHash → BlockHash → Bool) : Except String AuthoritySet :=
  match change.delay_kind with
  | DelayKind.Finalized =>
    if s.pending_standard_changes.any (fun e =>
        same_fork e change is_desc && decide (e.effective_number ≤ change.effective_number)) then
      Except.error "Duplicate authority set change."
    else
      Except.ok { s with pending_standard_changes := s.pending_standard_changes ++ [change] }
  | DelayKind.Best _ =>
    if s.pending_forced_changes.any (fun e => same_fork e change is_desc) then
      Except.error "Duplicate authority set change."
    else
      Except.ok { s with pending_forced_changes := s.pending_forced_changes ++ [change] }

/-- Modelled from the spec: `apply_forced_changes` of the sibling
authority-set module (spec sections 4.2 and glossary), whose source is
not in the supplied tree.  A pending forced change is effective at
`(hash, number)` when its canon block lies on the chain of `hash` and
its effective number is at most `number`; the first effective change
produces the successor set (authorities replaced, `set_id` incremented
per invariant I3) together with its median-last-finalized hint. -/
def spec_apply_forced_changes (s : AuthoritySet) (hash : BlockHash) (number : BlockNumber)
    (is_desc : BlockHash → BlockHash → Bool) (_initial_sync : Bool) :
    Except String (Option (BlockNumber × AuthoritySet)) :=
  match s.pending_forced_changes.find? (fun c =>
      (c.canon_hash == hash || is_desc c.canon_hash hash) &&
        decide (c.effective_number ≤ number)) with
  | some c =>
    match c.delay_kind with
    | DelayKind.Best median =>
      Except.ok (some (median,
        { current_authorities := c.next_authorities
          set_id := s.set_id + 1
          pending_standard_changes := []
          pending_forced_changes := [] }))
    | DelayKind.Finalized => Except.ok none
  | none => Except.ok none

/-- Modelled from the spec: `enacts_standard_change` of the sibling
authority-set module (spec section 4.2), whose source is not in the
supplied tree.  It returns `some true` when the block is the root
standard change ready to apply (its effective number equals the block
number and no earlier undischarged standard change precedes it on the
fork), `some false` when an earlier dependent change is still pending,
and `none` when no change is enacted at this block. -/
def spec_enacts_standard_change (s : AuthoritySet) (hash : BlockHash) (number : BlockNumber)
    (is_desc : BlockHash → BlockHash → Bool) : Except String (Option Bool) :=
  match s.pending_standard_changes.find? (fun c =>
      (c.canon_hash == hash || is_desc c.canon_hash hash) &&
        c.effective_number == number) with
  | some c =>
    Except.ok (some (!(s.pending_standard_changes.any (fun e =>
      (e.canon_hash == c.canon_hash || is_desc e.canon_hash c.canon_hash) &&
        decide (e.effective_number < c.effective_number)))))
  | none => Except.ok none

/-- Build an environment around the spec-modelled authority-set
operations, with the remaining collaborators supplied as parameters. -/
def spec_env (finalized_number : BlockNumber) (header_oracle : BlockNumber → BlockHeader)
    (hard_forks : BlockHash → Option PendingChange)
    (is_desc : BlockHash → BlockHash → Bool)
    (inner : Except String ImportResult)
    (enc : AuthoritySet → Option NewAuthoritySet → List (List Nat × List Nat))
    (dec : Justification → BlockHash × BlockNumber → Nat → AuthorityList →
      Except String Justification)
    (fin : BlockHash → BlockNumber → Justification → FinalizeResult) : ImportEnv :=
  { status := fun _ => Except.ok BlockStatus.Unknown
    info_finalized_number := finalized_number
    header_by_number := fun n => Except.ok (some (header_oracle n))
    inner_import := fun _ _ => inner
    is_descendent_of := fun _ => is_desc
    hard_forks := hard_forks
    add_pending_change := spec_add_pending_change
    apply_forced_changes := spec_apply_forced_changes
    enacts_standard_change := spec_enacts_standard_change
    update_authority_set_inserts := enc
    decode_and_verify_finalizes := dec
    finalize_block := fin }


/-- A small concrete authority set used by the concrete scenarios. -/
def base_set : AuthoritySet :=
  { current_authorities := [(1, 1)]
    set_id := 0
    pending_standard_changes := []
    pending_forced_changes := [] }

/-- A small concrete entry state used by the concrete scenarios. -/
def base_state : ImportState :=
  { authority_set := base_set
    voter_commands := []
    consensus_changes := []
    aux_writes := []
    inner_import_calls := 0
    justification_import_calls := 0 }

/-- A concrete header carrying one scheduled change (delay 3). -/
def w_sched_header : BlockHeader :=
  { number := 5
    parent_hash := 4
    hash := 10
    digest := [DigestItem.Consensus GRANDPA_ENGINE_ID
      (some (ConsensusLog.ScheduledChangeLog { next_authorities := [(2, 1)], delay := 3 }))] }

/-- A concrete block around `w_sched_header`. -/
def w_sched_block : BlockImportParams :=
  { header := w_sched_header
    justification := none
    origin := BlockOrigin.Own
    auxiliary := []
    post_hash := 10 }

/-- Concrete environment whose inner importer always fails (for the
rollback scenario). -/
def c1_env : ImportEnv :=
  { status := fun _ => Except.ok BlockStatus.Unknown
    info_finalized_number := 0
    header_by_number := fun _ => Except.ok none
    inner_import := fun _ _ => Except.error "inner import failed"
    is_descendent_of := fun _ _ _ => false
    hard_forks := fun _ => none
    add_pending_change := spec_add_pending_change
    apply_forced_changes := spec_apply_forced_changes
    enacts_standard_change := spec_enacts_standard_change
    update_authority_set_inserts := fun _ _ => [([0], [1])]
    decode_and_verify_finalizes := fun j _ _ _ => Except.ok j
    finalize_block := fun _ _ _ => FinalizeResult.Finalized }

/-- Concrete environment whose status oracle reports every block as
already in chain. -/
def c2_env : ImportEnv :=
  { c1_env with status := fun _ => Except.ok BlockStatus.InChain }

/-- A concrete hard-fork pending change for the priority scenario. -/
def c3_change : PendingChange :=
  { next_authorities := [(9, 1)]
    delay := 0
    canon_height := 7
    canon_hash := 7
    delay_kind := DelayKind.Finalized }

/-- A hard-fork index holding `c3_change` at hash 7. -/
def c3_hf : BlockHash → Option PendingChange :=
  fun h => if h == 7 then some c3_change else none

/-- A header carrying a forced change, used to show the hard-fork entry
wins regardless of digest contents. -/
def c3_header : BlockHeader :=
  { number := 7
    parent_hash := 6
    hash := 7
    digest := [DigestItem.Consensus GRANDPA_ENGINE_ID
      (some (ConsensusLog.ForcedChangeLog 2 { next_authorities := [(8, 1)], delay := 1 }))] }

/-- A header oracle returning a simple header at every number. -/
def simple_header_oracle : BlockNumber → BlockHeader :=
  fun k => { number := k, parent_hash := 0, hash := 1000 + k, digest := [] }

/-- A block whose digest carries both a forced change (delay 5,
median-last-finalized 1) and a scheduled change (delay 7). -/
def c4_block : BlockImportParams :=
  { header :=
      { number := 50
        parent_hash := 49
        hash := 77
        digest :=
          [DigestItem.Consensus GRANDPA_ENGINE_ID
            (some (ConsensusLog.ForcedChangeLog 1 { next_authorities := [(3, 1)], delay := 5 })),
           DigestItem.Consensus GRANDPA_ENGINE_ID
            (some (ConsensusLog.ScheduledChangeLog { next_authorities := [(4, 1)], delay := 7 }))] }
    justification := none
    origin := BlockOrigin.Own
    auxiliary := []
    post_hash := 77 }

/-- Concrete spec-modelled environment for the both-signals scenario. -/
def c4_env : ImportEnv :=
  spec_env 10 simple_header_oracle (fun _ => none) (fun _ _ => false)
    (Except.ok (ImportResult.Imported default_imported_aux))
    (fun _ _ => [([0], [1])])
    (fun j _ _ _ => Except.ok j)
    (fun _ _ _ => FinalizeResult.Finalized)

/-- The pending change a scheduled change with delay 10 signalled at
block number `n` (hash `hashB`) turns into. -/
def c5_change (n : BlockNumber) (v1 v2 : AuthorityId × Nat) (hashB : BlockHash) : PendingChange :=
  { next_authorities := [v1, v2]
    delay := 10
    canon_height := n
    canon_hash := hashB
    delay_kind := DelayKind.Finalized }

/-- A block at number `n` whose digest carries a single scheduled change
with delay 10 and authorities `[v1, v2]`, with no justification. -/
def c5_block (n : BlockNumber) (v1 v2 : AuthorityId × Nat) (parent hashB : BlockHash) :
    BlockImportParams :=
  { header :=
      { number := n
        parent_hash := parent
        hash := hashB
        digest := [DigestItem.Consensus GRANDPA_ENGINE_ID
          (some (ConsensusLog.ScheduledChangeLog { next_authorities := [v1, v2], delay := 10 }))] }
    justification := none
    origin := BlockOrigin.Own
    auxiliary := []
    post_hash := hashB }

/-- Spec-modelled environment for the scheduled-change scenario. -/
def c5_env (enc : AuthoritySet → Option NewAuthoritySet → List (List Nat × List Nat)) :
    ImportEnv :=
  spec_env 0 simple_header_oracle (fun _ => none) (fun _ _ => false)
    (Except.ok (ImportResult.Imported default_imported_aux))
    enc
    (fun j _ _ _ => Except.ok j)
    (fun _ _ _ => FinalizeResult.Finalized)

/-- Statement-side helper: the applied changes carried by an `ok`
outcome (and `None` otherwise). -/
def outcome_applied_changes : Outcome PendingSetChanges → AppliedChanges
  | Outcome.ok pcs => pcs.applied_changes
  | _ => AppliedChanges.None

/-- Statement-side helper: whether an import outcome is
`Imported(aux)`. -/
def outcome_is_imported : Outcome ImportResult → Bool
  | Outcome.ok (ImportResult.Imported _) => true
  | _ => false

/-- Statement-side helper: the `clear_justification_requests` flag of an
`Imported` outcome (false otherwise). -/
def outcome_clear_flag : Outcome ImportResult → Bool
  | Outcome.ok (ImportResult.Imported aux) => aux.clear_justification_requests
  | _ => false

/-- A plain block: empty digest, with an attached justification. -/
def w_plain_block : BlockImportParams :=
  { header := { number := 6, parent_hash := 10, hash := 20, digest := [] }
    justification := some [1, 2, 3]
    origin := BlockOrigin.Own
    auxiliary := []
    post_hash := 20 }

/-- Environment whose inner importer succeeds and whose standard-change
oracle reports a dependent (non-root) enacted change. -/
def c8_env : ImportEnv :=
  { c1_env with
    inner_import := fun _ _ => Except.ok (ImportResult.Imported default_imported_aux)
    enacts_standard_change := fun _ _ _ _ => Except.ok (some false) }

/-- Environment whose inner importer succeeds and whose justification
verifier always rejects. -/
def c9_env : ImportEnv :=
  { c1_env with
    inner_import := fun _ _ => Except.ok (ImportResult.Imported default_imported_aux)
    decode_and_verify_finalizes := fun _ _ _ _ => Except.error "bad justification" }

/-- The successor authority set produced by the forced-change oracle in
the concrete forced-change scenario. -/
def c6_new_set : AuthoritySet :=
  { current_authorities := [(5, 1), (6, 1)]
    set_id := 1
    pending_standard_changes := []
    pending_forced_changes := [] }

/-- Environment whose forced-change oracle fires with median 3 and whose
chain has finalized number 7 (so the canon number is 3). -/
def c6_env : ImportEnv :=
  { c1_env with
    inner_import := fun _ _ => Except.ok (ImportResult.Imported default_imported_aux)
    info_finalized_number := 7
    header_by_number := fun n => Except.ok (some (simple_header_oracle n))
    apply_forced_changes := fun _ _ _ _ _ => Except.ok (some (3, c6_new_set)) }

/-- Same as `c6_env` but the header at the canon number is missing. -/
def c6_panic_env : ImportEnv :=
  { c6_env with header_by_number := fun _ => Except.ok none }

/-- The new-authority-set descriptor produced in the `c6_env` scenario:
canon number `min 7 3 = 3`, canon hash from the header oracle. -/
def c6_new : NewAuthoritySet :=
  { canon_number := 3
    canon_hash := 1003
    set_id := 1
    authorities := [(5, 1), (6, 1)] }

/-- The pending-set-changes record of the `c6_env` scenario. -/
def c6_pcs : PendingSetChanges :=
  { just_in_case := some base_set
    applied_changes := AppliedChanges.Forced c6_new
    do_pause := false }

/-- The block, after the aux write, of the `c6_env` scenario. -/
def c6_b1 : BlockImportParams :=
  { w_plain_block with auxiliary := [([0], some [1])] }

/-- The state after `make_authorities_changes` in the `c6_env` scenario. -/
def c6_st1 : ImportState :=
  { base_state with authority_set := c6_new_set, aux_writes := [([0], some [1])] }

/-- A block carrying one forced change with delay 0 and median 2. -/
def c7_block : BlockImportParams :=
  { header :=
      { number := 9
        parent_hash := 19
        hash := 21
        digest := [DigestItem.Consensus GRANDPA_ENGINE_ID
          (some (ConsensusLog.ForcedChangeLog 2
            { next_authorities := [(5, 1), (6, 1)], delay := 0 }))] }
    justification := none
    origin := BlockOrigin.Own
    auxiliary := []
    post_hash := 21 }

/-- Spec-modelled environment for the forced-change pause scenario,
chain finalized at 5. -/
def c7_env : ImportEnv :=
  spec_env 5 simple_header_oracle (fun _ => none) (fun _ _ => false)
    (Except.ok (ImportResult.Imported default_imported_aux))
    (fun _ _ => [([2], [3])])
    (fun j _ _ _ => Except.ok j)
    (fun _ _ _ => FinalizeResult.Finalized)

/-- The pending forced change derived from `c7_block`. -/
def c7_pending : PendingChange :=
  { next_authorities := [(5, 1), (6, 1)]
    delay := 0
    canon_height := 9
    canon_hash := 21
    delay_kind := DelayKind.Best 2 }

/-- The live authority set of the `c7_env` scenario after the forced
rotation. -/
def c7_live_set : AuthoritySet :=
  { current_authorities := [(5, 1), (6, 1)]
    set_id := 1
    pending_standard_changes := []
    pending_forced_changes := [] }

/-- The new-authority-set descriptor of the `c7_env` scenario: canon
number `min 5 2 = 2`. -/
def c7_new : NewAuthoritySet :=
  { canon_number := 2
    canon_hash := 1002
    set_id := 1
    authorities := [(5, 1), (6, 1)] }

/-- The pending-set-changes record of the `c7_env` scenario. -/
def c7_pcs : PendingSetChanges :=
  { just_in_case := some base_set
    applied_changes := AppliedChanges.Forced c7_new
    do_pause := true }

/-- The block, after the aux write, of the `c7_env` scenario. -/
def c7_b1 : BlockImportParams :=
  { c7_block with auxiliary := [([2], some [3])] }

/-- The state after `make_authorities_changes` in the `c7_env` scenario. -/
def c7_st1 : ImportState :=
  { base_state with authority_set := c7_live_set, aux_writes := [([2], some [3])] }

/-- A block whose digest carries both a forced change (median
`median`, delay `delayF`, authorities `nextF`) and a scheduled change
(delay 7, authorities `nextS`), at number `n`. -/
def c4_both_block (median delayF : BlockNumber) (nextF nextS : AuthorityList)
    (n : BlockNumber) (parent hashB : BlockHash) : BlockImportParams :=
  { header :=
      { number := n
        parent_hash := parent
        hash := hashB
        digest :=
          [DigestItem.Consensus GRANDPA_ENGINE_ID
            (some (ConsensusLog.ForcedChangeLog median
              { next_authorities := nextF, delay := delayF })),
           DigestItem.Consensus GRANDPA_ENGINE_ID
            (some (ConsensusLog.ScheduledChangeLog
              { next_authorities := nextS, delay := 7 }))] }
    justification := none
    origin := BlockOrigin.Own
    auxiliary := []
    post_hash := hashB }

/-- The concrete spec-modelled environment of the scheduled-change
counterexample run. -/
def c5_cex_env : ImportEnv := c5_env (fun _ _ => [([7], [8])])

/-- The pending-set-changes record of the dependent-standard-change
scenario (`c8_env`). -/
def c8_pcs : PendingSetChanges :=
  { just_in_case := none, applied_changes := AppliedChanges.Standard false, do_pause := false }

/-- The pending-set-changes record of the bad-justification scenario
(`c9_env`). -/
def c9_pcs : PendingSetChanges :=
  { just_in_case := none, applied_changes := AppliedChanges.None, do_pause := false }

/-- Invariant tying a guard to the state it was opened on: if no prior
set is recorded, the live value is still the shared set; if one is
recorded, it is exactly the shared set as it was on entry. -/
def guard_ok (g : InnerGuard) (st : ImportState) : Prop :=
  (g.old = none → g.live = st.authority_set) ∧
  (∀ o, g.old = some o → o = st.authority_set)

/-- The facts `make_authorities_changes` (and its helper stages)
guarantee about a result triple, relative to the entry state: the voter
channel, the consensus-changes log and both call counters are untouched,
the block justification is untouched, and the authority set is restored
on every failing outcome while the recorded snapshot, if any, is the
entry set. -/
def mac_result_facts (st : ImportState) (block : BlockImportParams)
    (r : Outcome PendingSetChanges × BlockImportParams × ImportState) : Prop :=
  r.2.2.voter_commands = st.voter_commands ∧
  r.2.2.consensus_changes = st.consensus_changes ∧
  r.2.2.inner_import_calls = st.inner_import_calls ∧
  r.2.2.justification_import_calls = st.justification_import_calls ∧
  r.2.1.justification = block.justification ∧
  (∀ pcs, r.1 = Outcome.ok pcs →
    (pcs.just_in_case = none → r.2.2.authority_set = st.authority_set) ∧
    (∀ o, pcs.just_in_case = some o → o = st.authority_set)) ∧
  (∀ e, r.1 = Outcome.err e → r.2.2.authority_set = st.authority_set) ∧
  (∀ m, r.1 = Outcome.panicked m → r.2.2.authority_set = st.authority_set)

theorem guard_drop_restore_eq (g : InnerGuard) (st : ImportState)
    (hg : guard_ok g st) : g.drop_restore st = st := by
  unfold InnerGuard.drop_restore
  cases hgo : g.old with
  | none => rfl
  | some o =>
    have ho := hg.2 o hgo
    subst ho
    rfl

theorem finish_facts (env : ImportEnv) (st : ImportState) (block : BlockImportParams)
    (g : InnerGuard) (a : AppliedChanges) (dp : Bool) (hg : guard_ok g st) :
    mac_result_facts st block (make_authorities_changes_finish env st block g a dp) := by
  unfold make_authorities_changes_finish InnerGuard.consume
  cases hgo : g.old with
  | none =>
    refine ⟨rfl, rfl, rfl, rfl, rfl, ?_, ?_, ?_⟩
    · intro pcs hpcs
      cases hpcs
      constructor
      · intro _
        exact hg.1 hgo
      · intro o ho
        simp at ho
    · intro e he
      cases he
    · intro m hm
      cases hm
  | some o =>
    refine ⟨rfl, rfl, rfl, rfl, rfl, ?_, ?_, ?_⟩
    · intro pcs hpcs
      cases hpcs
      constructor
      · intro hnone
        simp at hnone
      · intro o2 ho2
        simp at ho2
        subst ho2
        exact hg.2 o hgo
    · intro e he
      cases he
    · intro m hm
      cases hm

theorem mac_result_facts_err (st : ImportState) (block : BlockImportParams)
    (e : ConsensusError) :
    mac_result_facts st block (Outcome.err e, block, st) := by
  unfold mac_result_facts
  refine ⟨rfl, rfl, rfl, rfl, rfl, ?_, ?_, ?_⟩
  · intro pcs hpcs
    cases hpcs
  · intro e2 he2
    rfl
  · intro m hm
    cases hm

theorem mac_result_facts_panicked (st : ImportState) (block : BlockImportParams)
    (m : String) :
    mac_result_facts st block (Outcome.panicked m, block, st) := by
  unfold mac_result_facts
  refine ⟨rfl, rfl, rfl, rfl, rfl, ?_, ?_, ?_⟩
  · intro pcs hpcs
    cases hpcs
  · intro e2 he2
    cases he2
  · intro m2 hm2
    rfl

theorem apply_facts (env : ImportEnv) (st : ImportState) (block : BlockImportParams)
    (hash : BlockHash) (isync : Bool) (number : BlockNumber)
    (is_desc : BlockHash → BlockHash → Bool) (g : InnerGuard) (dp : Bool)
    (hg : guard_ok g st) :
    mac_result_facts st block
      (make_authorities_changes_apply env st block hash isync number is_desc g dp) := by
  unfold make_authorities_changes_apply
  cases hf : env.apply_forced_changes g.live hash number is_desc isync with
  | error e =>
    dsimp only
    rw [guard_drop_restore_eq g st hg]
    exact mac_result_facts_err st block (ConsensusError.ClientImport e)
  | ok oforced =>
    cases oforced with
    | none =>
      dsimp only
      cases he : env.enacts_standard_change g.live hash number is_desc with
      | error e =>
        dsimp only
        rw [guard_drop_restore_eq g st hg]
        exact mac_result_facts_err st block (ConsensusError.ClientImport e)
      | ok oroot =>
        cases oroot with
        | none =>
          exact finish_facts env st block g AppliedChanges.None dp hg
        | some root =>
          exact finish_facts env st block g (AppliedChanges.Standard root) dp hg
    | some p =>
      obtain ⟨median, new_set⟩ := p
      dsimp only
      cases hh : env.header_by_number (min env.info_finalized_number median) with
      | error e =>
        dsimp only
        rw [guard_drop_restore_eq g st hg]
        exact mac_result_facts_err st block (ConsensusError.ClientImport e)
      | ok ohdr =>
        cases ohdr with
        | none =>
          dsimp only
          rw [guard_drop_restore_eq g st hg]
          exact mac_result_facts_panicked st block
            "the given block number is less or equal than the current best finalized number; current best finalized number must exist in chain; qed."
        | some hdr =>
          dsimp only
          apply finish_facts
          unfold InnerGuard.set_old
          cases hgo : g.old with
          | none =>
            dsimp only
            constructor
            · intro h
              simp at h
            · intro o ho
              simp at ho
              subst ho
              exact hg.1 hgo
          | some o =>
            dsimp only
            constructor
            · intro h
              simp at h
            · intro o2 ho2
              simp at ho2
              subst ho2
              exact hg.2 o hgo

theorem mac_facts (env : ImportEnv) (st : ImportState) (block : BlockImportParams)
    (hash : BlockHash) (isync : Bool) :
    mac_result_facts st block (make_authorities_changes env st block hash isync) := by
  unfold make_authorities_changes
  cases hmc : check_new_change env.hard_forks block.header hash with
  | none =>
    dsimp only
    apply apply_facts
    constructor
    · intro _
      rfl
    · intro o ho
      simp at ho
  | some change =>
    dsimp only [InnerGuard.set_old]
    cases ha : env.add_pending_change st.authority_set change
        (env.is_descendent_of (hash, block.header.parent_hash)) with
    | error e =>
      dsimp only [InnerGuard.drop_restore]
      exact mac_result_facts_err st block (ConsensusError.ClientImport e)
    | ok s1 =>
      dsimp only
      apply apply_facts
      constructor
      · intro h
        simp at h
      · intro o ho
        simp at ho
        subst ho
        rfl

theorem import_justification_no_panic_when_not_enacting (env : ImportEnv) (st : ImportState)
    (hash : BlockHash) (number : BlockNumber) (j : Justification) (isync : Bool) :
    (import_justification env st hash number j false isync).1.is_panicked = false := by
  unfold import_justification
  dsimp only
  cases hd : env.decode_and_verify_finalizes j (hash, number)
      st.authority_set.set_id st.authority_set.current_authorities with
  | error e => rfl
  | ok v =>
    dsimp only
    cases hf : env.finalize_block hash number v with
    | VoterCommandResult cmd => rfl
    | ErrorResult e => rfl
    | Finalized => rfl

theorem import_justification_no_panic_elim (env : ImportEnv) (hash : BlockHash)
    (number : BlockNumber) (j : Justification) (isync : Bool) :
    ∀ (s : ImportState) (m : String),
      (import_justification env s hash number j false isync).1 = Outcome.panicked m → False := by
  intro s m hm
  have h := import_justification_no_panic_when_not_enacting env s hash number j isync
  rw [hm] at h
  simp [Outcome.is_panicked] at h

theorem import_justification_voters_extend (env : ImportEnv) (st : ImportState)
    (hash : BlockHash) (number : BlockNumber) (j : Justification)
    (enacts_change : Bool) (isync : Bool) :
    ∃ extra,
      (import_justification env st hash number j enacts_change isync).2.voter_commands =
        st.voter_commands ++ extra := by
  unfold import_justification
  dsimp only
  cases hd : env.decode_and_verify_finalizes j (hash, number)
      st.authority_set.set_id st.authority_set.current_authorities with
  | error e => exact ⟨[], by simp⟩
  | ok v =>
    dsimp only
    cases hf : env.finalize_block hash number v with
    | VoterCommandResult cmd => exact ⟨[cmd], rfl⟩
    | ErrorResult e => exact ⟨[], by simp⟩
    | Finalized =>
      cases enacts_change with
      | true => exact ⟨[], by simp⟩
      | false => exact ⟨[], by simp⟩

theorem import_justification_calls_bump (env : ImportEnv) (st : ImportState)
    (hash : BlockHash) (number : BlockNumber) (j : Justification)
    (enacts_change : Bool) (isync : Bool) :
    (import_justification env st hash number j enacts_change isync).2.justification_import_calls =
      st.justification_import_calls + 1 := by
  unfold import_justification
  dsimp only
  cases hd : env.decode_and_verify_finalizes j (hash, number)
      st.authority_set.set_id st.authority_set.current_authorities with
  | error e => rfl
  | ok v =>
    dsimp only
    cases hf : env.finalize_block hash number v with
    | VoterCommandResult cmd => rfl
    | ErrorResult e => rfl
    | Finalized =>
      cases enacts_change with
      | true => rfl
      | false => rfl

/-- C1: for every block and every failure of the inner importer during
`import_block` (an `Err` result or any `Ok` result other than
`Imported`), the shared authority-set state after the call equals the
state observed before the first mutation made on behalf of the block;
moreover the snapshot recorded by the guard, whenever one exists, is
exactly the pre-call set (it is taken before the first mutation and
never refreshed by later mutations), and it is the value written back on
the rollback path. -/
theorem import_block_rollback_on_inner_failure (env : ImportEnv)
    (block : BlockImportParams) (new_cache : List (Nat × List Nat)) (st : ImportState)
    (hfail : ∀ b c aux, env.inner_import b c ≠ Except.ok (ImportResult.Imported aux)) :
    (import_block env block new_cache st).2.authority_set = st.authority_set ∧
    (∀ isync pcs b1 st1,
      make_authorities_changes env st block block.post_hash isync =
        (Outcome.ok pcs, b1, st1) →
      pcs.just_in_case = none ∨ pcs.just_in_case = some st.authority_set) := by
  constructor
  · unfold import_block
    dsimp only
    cases hs : env.status block.post_hash with
    | error e => rfl
    | ok status =>
      cases status with
      | InChain => rfl
      | Unknown =>
        dsimp only
        have hfacts := mac_facts env st block block.post_hash
          (decide (block.origin = BlockOrigin.NetworkInitialSync))
        rcases hm : make_authorities_changes env st block block.post_hash
            (decide (block.origin = BlockOrigin.NetworkInitialSync)) with ⟨r, b1, st1⟩
        rw [hm] at hfacts
        cases r with
        | err e =>
          dsimp only
          exact hfacts.2.2.2.2.2.2.1 e rfl
        | panicked m =>
          dsimp only
          exact hfacts.2.2.2.2.2.2.2 m rfl
        | ok pcs =>
          dsimp only
          have hok := hfacts.2.2.2.2.2.1 pcs rfl
          cases hi : env.inner_import { b1 with justification := none } new_cache with
          | error e =>
            dsimp only [PendingSetChanges.revert_state]
            cases hj : pcs.just_in_case with
            | none =>
              dsimp only
              exact hok.1 hj
            | some old =>
              dsimp only
              exact hok.2 old hj
          | ok r2 =>
            cases r2 with
            | Imported aux => exact absurd hi (hfail _ _ aux)
            | AlreadyInChain =>
              dsimp only [PendingSetChanges.revert_state]
              cases hj : pcs.just_in_case with
              | none => exact hok.1 hj
              | some old => exact hok.2 old hj
            | KnownBad =>
              dsimp only [PendingSetChanges.revert_state]
              cases hj : pcs.just_in_case with
              | none => exact hok.1 hj
              | some old => exact hok.2 old hj
            | UnknownParent =>
              dsimp only [PendingSetChanges.revert_state]
              cases hj : pcs.just_in_case with
              | none => exact hok.1 hj
              | some old => exact hok.2 old hj
            | MissingState =>
              dsimp only [PendingSetChanges.revert_state]
              cases hj : pcs.just_in_case with
              | none => exact hok.1 hj
              | some old => exact hok.2 old hj
  · intro isync pcs b1 st1 hm
    have hfacts := mac_facts env st block block.post_hash isync
    rw [hm] at hfacts
    have hok := hfacts.2.2.2.2.2.1 pcs rfl
    cases hj : pcs.just_in_case with
    | none => exact Or.inl rfl
    | some old => exact Or.inr (by rw [hok.2 old hj])

/-- C1 witness: a concrete run with a scheduled-change block and an inner
importer that fails leaves the authority set untouched. -/
theorem import_block_rollback_on_inner_failure_witness :
    (import_block c1_env w_sched_block [] base_state).2.authority_set =
      base_state.authority_set :=
  (import_block_rollback_on_inner_failure c1_env w_sched_block [] base_state
    (fun b c aux h => by simp [c1_env] at h)).1

/-- C2: for a block whose status in the inner store is `InChain`,
`import_block` returns `AlreadyInChain` immediately and the whole state
is unchanged: no authority-set mutation, no voter command, no
consensus-changes note, no aux write, and the inner importer and the
justification handler are never called (the call counters are equal). -/
theorem import_block_already_in_chain_no_side_effects (env : ImportEnv)
    (block : BlockImportParams) (new_cache : List (Nat × List Nat)) (st : ImportState)
    (hs : env.status block.post_hash = Except.ok BlockStatus.InChain) :
    import_block env block new_cache st = (Outcome.ok ImportResult.AlreadyInChain, st) := by
  unfold import_block
  dsimp only
  rw [hs]

/-- C2 witness: a concrete run on an in-chain block returns
`AlreadyInChain` with the state unchanged. -/
theorem import_block_already_in_chain_no_side_effects_witness :
    import_block c2_env w_sched_block [] base_state =
      (Outcome.ok ImportResult.AlreadyInChain, base_state) :=
  import_block_already_in_chain_no_side_effects c2_env w_sched_block [] base_state rfl

/-- C3: the pending change derived from a block is resolved in strict
priority order: a hard-fork index entry for the block hash is used
verbatim regardless of the digest; otherwise the first forced change in
the digest is used, wrapped with a best-delayed kind carrying the median
last finalized number; otherwise the first scheduled change is used,
wrapped with a finalized delay kind; otherwise there is no change. -/
theorem check_new_change_priority_order
    (hard_forks : BlockHash → Option PendingChange) (header : BlockHeader)
    (hash : BlockHash) :
    (∀ c, hard_forks hash = some c → check_new_change hard_forks header hash = some c) ∧
    (hard_forks hash = none →
      ∀ m ch, find_forced_change header = some (m, ch) →
        check_new_change hard_forks header hash = some
          { next_authorities := ch.next_authorities
            delay := ch.delay
            canon_height := header.number
            canon_hash := hash
            delay_kind := DelayKind.Best m }) ∧
    (hard_forks hash = none → find_forced_change header = none →
      ∀ ch, find_scheduled_change header = some ch →
        check_new_change hard_forks header hash = some
          { next_authorities := ch.next_authorities
            delay := ch.delay
            canon_height := header.number
            canon_hash := hash
            delay_kind := DelayKind.Finalized }) ∧
    (hard_forks hash = none → find_forced_change header = none →
      find_scheduled_change header = none →
      check_new_change hard_forks header hash = none) := by
  refine ⟨?_, ?_, ?_, ?_⟩
  · intro c hc
    unfold check_new_change
    rw [hc]
  · intro h0 m ch hfc
    unfold check_new_change
    rw [h0, hfc]
  · intro h0 hfc ch hsc
    unfold check_new_change
    rw [h0, hfc, hsc]
  · intro h0 hfc hsc
    unfold check_new_change
    rw [h0, hfc, hsc]

/-- C3 witness: with a hard-fork entry at hash 7 and a digest that also
carries a forced change, the hard-fork entry is returned verbatim. -/
theorem check_new_change_priority_order_witness :
    check_new_change c3_hf c3_header 7 = some c3_change :=
  (check_new_change_priority_order c3_hf c3_header 7).1 c3_change (by decide)

/-- C10: the sync-facing justification-import entry point forwards to the
inherent handler with enacts-change and initial-sync both false, and on
that call path the successful-finalize assertion can never fire: the
outcome is never a panic, for any environment, state and justification. -/
theorem sync_justification_import_never_panics (env : ImportEnv) (st : ImportState)
    (hash : BlockHash) (number : BlockNumber) (j : Justification) :
    justification_import_from_sync env st hash number j =
      import_justification env st hash number j false false ∧
    (justification_import_from_sync env st hash number j).1.is_panicked = false :=
  ⟨rfl, import_justification_no_panic_when_not_enacting env st hash number j false⟩

theorem import_block_success_path (env : ImportEnv) (block : BlockImportParams)
    (new_cache : List (Nat × List Nat)) (st : ImportState)
    (pcs : PendingSetChanges) (b1 : BlockImportParams) (st1 : ImportState)
    (aux : ImportedAux)
    (hs : env.status block.post_hash = Except.ok BlockStatus.Unknown)
    (hm : make_authorities_changes env st block block.post_hash
        (decide (block.origin = BlockOrigin.NetworkInitialSync)) =
      (Outcome.ok pcs, b1, st1))
    (hi : env.inner_import { b1 with justification := none } new_cache =
      Except.ok (ImportResult.Imported aux)) :
    import_block env block new_cache st =
      import_block_post env { st1 with inner_import_calls := st1.inner_import_calls + 1 }
        block.post_hash block.header.number pcs aux b1.justification (!new_cache.isEmpty)
        (decide (block.origin = BlockOrigin.NetworkInitialSync)) := by
  unfold import_block
  dsimp only
  rw [hs]
  dsimp only
  rw [hm]
  dsimp only
  rw [hi]

/-- C8: for a block whose change-processing result is `Standard(false)`,
any justification attached to the block is discarded before the
justification-processing step: the justification handler is never
invoked (its call counter is unchanged by the whole import). -/
theorem standard_false_drops_justification (env : ImportEnv)
    (block : BlockImportParams) (new_cache : List (Nat × List Nat)) (st : ImportState)
    (pcs : PendingSetChanges) (b1 : BlockImportParams) (st1 : ImportState)
    (aux : ImportedAux)
    (hs : env.status block.post_hash = Except.ok BlockStatus.Unknown)
    (hm : make_authorities_changes env st block block.post_hash
        (decide (block.origin = BlockOrigin.NetworkInitialSync)) =
      (Outcome.ok pcs, b1, st1))
    (ha : pcs.applied_changes = AppliedChanges.Standard false)
    (hi : env.inner_import { b1 with justification := none } new_cache =
      Except.ok (ImportResult.Imported aux)) :
    (import_block env block new_cache st).2.justification_import_calls =
      st.justification_import_calls := by
  have hfacts := mac_facts env st block block.post_hash
    (decide (block.origin = BlockOrigin.NetworkInitialSync))
  rw [hm] at hfacts
  have hjc : st1.justification_import_calls = st.justification_import_calls :=
    hfacts.2.2.2.1
  rw [import_block_success_path env block new_cache st pcs b1 st1 aux hs hm hi]
  unfold import_block_post
  dsimp only [PendingSetChanges.defuse]
  rw [ha]
  dsimp only
  split <;> split <;> simp [hjc]

theorem finish_do_pause (env : ImportEnv) (st : ImportState) (block : BlockImportParams)
    (g : InnerGuard) (a : AppliedChanges) (dp : Bool) :
    ∀ pcs, (make_authorities_changes_finish env st block g a dp).1 = Outcome.ok pcs →
      pcs.do_pause = dp := by
  intro pcs hpcs
  unfold make_authorities_changes_finish InnerGuard.consume at hpcs
  cases hgo : g.old with
  | none =>
    rw [hgo] at hpcs
    dsimp only at hpcs
    cases hpcs
    rfl
  | some o =>
    rw [hgo] at hpcs
    dsimp only at hpcs
    cases hpcs
    rfl

theorem apply_do_pause (env : ImportEnv) (st : ImportState) (block : BlockImportParams)
    (hash : BlockHash) (isync : Bool) (number : BlockNumber)
    (is_desc : BlockHash → BlockHash → Bool) (g : InnerGuard) (dp : Bool) :
    ∀ pcs,
      (make_authorities_changes_apply env st block hash isync number is_desc g dp).1 =
        Outcome.ok pcs →
      pcs.do_pause = dp := by
  intro pcs hpcs
  unfold make_authorities_changes_apply at hpcs
  cases hf : env.apply_forced_changes g.live hash number is_desc isync with
  | error e =>
    rw [hf] at hpcs
    cases hpcs
  | ok oforced =>
    rw [hf] at hpcs
    cases oforced with
    | none =>
      dsimp only at hpcs
      cases he : env.enacts_standard_change g.live hash number is_desc with
      | error e =>
        rw [he] at hpcs
        cases hpcs
      | ok oroot =>
        rw [he] at hpcs
        cases oroot with
        | none => exact finish_do_pause env st block g AppliedChanges.None dp pcs hpcs
        | some root =>
          exact finish_do_pause env st block g (AppliedChanges.Standard root) dp pcs hpcs
    | some p =>
      obtain ⟨median, new_set⟩ := p
      dsimp only at hpcs
      cases hh : env.header_by_number (min env.info_finalized_number median) with
      | error e =>
        rw [hh] at hpcs
        cases hpcs
      | ok ohdr =>
        rw [hh] at hpcs
        cases ohdr with
        | none => cases hpcs
        | some hdr =>
          dsimp only at hpcs
          exact finish_do_pause env st block _ _ dp pcs hpcs

theorem mac_do_pause (env : ImportEnv) (st : ImportState) (block : BlockImportParams)
    (hash : BlockHash) (isync : Bool) :
    ∀ pcs b1 st1,
      make_authorities_changes env st block hash isync = (Outcome.ok pcs, b1, st1) →
      pcs.do_pause =
        (match check_new_change env.hard_forks block.header hash with
          | some c =>
            (match c.delay_kind with
              | DelayKind.Best _ => true
              | DelayKind.Finalized => false)
          | none => false) := by
  intro pcs b1 st1 hm
  unfold make_authorities_changes at hm
  cases hmc : check_new_change env.hard_forks block.header hash with
  | none =>
    rw [hmc] at hm
    dsimp only at hm
    exact apply_do_pause env st block hash isync block.header.number
      (env.is_descendent_of (hash, block.header.parent_hash))
      { old := none, live := st.authority_set } false pcs (by rw [hm])
  | some change =>
    rw [hmc] at hm
    dsimp only [InnerGuard.set_old] at hm
    cases ha : env.add_pending_change st.authority_set change
        (env.is_descendent_of (hash, block.header.parent_hash)) with
    | error e =>
      rw [ha] at hm
      cases hm
    | ok s1 =>
      rw [ha] at hm
      dsimp only at hm
      exact apply_do_pause env st block hash isync block.header.number
        (env.is_descendent_of (hash, block.header.parent_hash))
        { old := some st.authority_set, live := s1 }
        (match change.delay_kind with
          | DelayKind.Best _ => true
          | DelayKind.Finalized => false) pcs (by rw [hm])

theorem post_voters (env : ImportEnv) (st : ImportState) (hash : BlockHash)
    (number : BlockNumber) (pcs : PendingSetChanges) (aux : ImportedAux)
    (justif : Option Justification) (cc : Bool) (isy : Bool) (new_set : NewAuthoritySet)
    (hdp : pcs.do_pause = true)
    (ha : pcs.applied_changes = AppliedChanges.Forced new_set) :
    ∃ tail,
      (import_block_post env st hash number pcs aux justif cc isy).2.voter_commands =
        st.voter_commands ++
          VoterCommand.Pause "Forced change scheduled after inactivity" ::
            VoterCommand.ChangeAuthorities new_set :: tail := by
  unfold import_block_post
  dsimp only [PendingSetChanges.defuse]
  rw [ha, hdp]
  simp only [reduceIte]
  dsimp only [AppliedChanges.needs_justification]
  cases justif with
  | none =>
    dsimp only
    cases hcc : cc with
    | true => exact ⟨[], by simp⟩
    | false => exact ⟨[], by simp⟩
  | some j =>
    dsimp only
    obtain ⟨extra, hextra⟩ := import_justification_voters_extend env
      { st with voter_commands :=
          (st.voter_commands ++
            [VoterCommand.Pause "Forced change scheduled after inactivity"]) ++
            [VoterCommand.ChangeAuthorities new_set] }
      hash number j false isy
    refine ⟨extra, ?_⟩
    split
    · rw [hextra]
      simp
    · rw [hextra]
      simp
    · split
      · rw [hextra]
        simp
      · rw [hextra]
        simp

theorem post_forced (env : ImportEnv) (st : ImportState) (hash : BlockHash)
    (number : BlockNumber) (pcs : PendingSetChanges) (aux : ImportedAux)
    (justif : Option Justification) (cc : Bool) (isy : Bool) (new_set : NewAuthoritySet)
    (ha : pcs.applied_changes = AppliedChanges.Forced new_set) :
    outcome_is_imported (import_block_post env st hash number pcs aux justif cc isy).1 = true ∧
    outcome_clear_flag (import_block_post env st hash number pcs aux justif cc isy).1 = true ∧
    VoterCommand.ChangeAuthorities new_set ∈
      (import_block_post env st hash number pcs aux justif cc isy).2.voter_commands := by
  unfold import_block_post
  dsimp only [PendingSetChanges.defuse]
  rw [ha]
  dsimp only [AppliedChanges.needs_justification]
  cases hdp : pcs.do_pause with
  | true =>
    simp only [reduceIte]
    cases justif with
    | none =>
      cases hcc : cc <;> simp [outcome_is_imported, outcome_clear_flag]
    | some j =>
      obtain ⟨extra, hextra⟩ := import_justification_voters_extend env
        { st with voter_commands :=
            (st.voter_commands ++
              [VoterCommand.Pause "Forced change scheduled after inactivity"]) ++
              [VoterCommand.ChangeAuthorities new_set] }
        hash number j false isy
      dsimp only
      split
      · refine ⟨by simp [outcome_is_imported], by simp [outcome_clear_flag], ?_⟩
        rw [hextra]
        simp
      · rename_i m heq
        exact (import_justification_no_panic_elim env hash number j isy _ _ heq).elim
      · cases hcc : cc with
        | true =>
          simp only [Bool.false_or, reduceIte]
          refine ⟨by simp [outcome_is_imported], by simp [outcome_clear_flag], ?_⟩
          rw [hextra]
          simp
        | false =>
          simp only [Bool.false_or, Bool.false_eq_true, if_false]
          refine ⟨by simp [outcome_is_imported], by simp [outcome_clear_flag], ?_⟩
          rw [hextra]
          simp
  | false =>
    simp only [Bool.false_eq_true, if_false]
    cases justif with
    | none =>
      cases hcc : cc <;> simp [outcome_is_imported, outcome_clear_flag]
    | some j =>
      obtain ⟨extra, hextra⟩ := import_justification_voters_extend env
        { st with voter_commands :=
            st.voter_commands ++ [VoterCommand.ChangeAuthorities new_set] }
        hash number j false isy
      dsimp only
      split
      · refine ⟨by simp [outcome_is_imported], by simp [outcome_clear_flag], ?_⟩
        rw [hextra]
        simp
      · rename_i m heq
        exact (import_justification_no_panic_elim env hash number j isy _ _ heq).elim
      · cases hcc : cc with
        | true =>
          simp only [Bool.false_or, reduceIte]
          refine ⟨by simp [outcome_is_imported], by simp [outcome_clear_flag], ?_⟩
          rw [hextra]
          simp
        | false =>
          simp only [Bool.false_or, Bool.false_eq_true, if_false]
          refine ⟨by simp [outcome_is_imported], by simp [outcome_clear_flag], ?_⟩
          rw [hextra]
          simp

theorem post_just_fail (env : ImportEnv) (st : ImportState) (hash : BlockHash)
    (number : BlockNumber) (pcs : PendingSetChanges) (aux : ImportedAux)
    (j : Justification) (cc : Bool) (isy : Bool)
    (hnsf : pcs.applied_changes ≠ AppliedChanges.Standard false)
    (hfail : ∀ s nj, ∃ e,
      (import_justification env s hash number j nj isy).1 = Outcome.err e) :
    (import_block_post env st hash number pcs aux (some j) cc isy).1 =
      Outcome.ok (ImportResult.Imported
        { clear_justification_requests :=
            aux.clear_justification_requests || pcs.applied_changes.is_forced
          needs_justification :=
            aux.needs_justification || (pcs.applied_changes.needs_justification || cc)
          bad_justification :=
            aux.bad_justification || (pcs.applied_changes.needs_justification || cc) }) := by
  unfold import_block_post
  dsimp only [PendingSetChanges.defuse]
  cases happ : pcs.applied_changes with
  | Standard root =>
    cases root with
    | false => exact absurd happ hnsf
    | true =>
      dsimp only [AppliedChanges.needs_justification, AppliedChanges.is_forced]
      cases hdp : pcs.do_pause with
      | true =>
        simp only [reduceIte]
        obtain ⟨e, he⟩ := hfail
          { st with voter_commands :=
              st.voter_commands ++
                [VoterCommand.Pause "Forced change scheduled after inactivity"] } true
        rw [he]
        simp
      | false =>
        simp only [Bool.false_eq_true, if_false]
        obtain ⟨e, he⟩ := hfail st true
        rw [he]
        simp
  | Forced new_set =>
    dsimp only [AppliedChanges.needs_justification, AppliedChanges.is_forced]
    cases hdp : pcs.do_pause with
    | true =>
      simp only [reduceIte]
      obtain ⟨e, he⟩ := hfail
        { st with voter_commands :=
            (st.voter_commands ++
              [VoterCommand.Pause "Forced change scheduled after inactivity"]) ++
              [VoterCommand.ChangeAuthorities new_set] } false
      rw [he]
      cases hcc : cc <;> simp
    | false =>
      simp only [Bool.false_eq_true, if_false]
      obtain ⟨e, he⟩ := hfail
        { st with voter_commands :=
            st.voter_commands ++ [VoterCommand.ChangeAuthorities new_set] } false
      rw [he]
      cases hcc : cc <;> simp
  | None =>
    dsimp only [AppliedChanges.needs_justification, AppliedChanges.is_forced]
    cases hdp : pcs.do_pause with
    | true =>
      simp only [reduceIte]
      obtain ⟨e, he⟩ := hfail
        { st with voter_commands :=
            st.voter_commands ++
              [VoterCommand.Pause "Forced change scheduled after inactivity"] } false
      rw [he]
      cases hcc : cc <;> simp
    | false =>
      simp only [Bool.false_eq_true, if_false]
      obtain ⟨e, he⟩ := hfail st false
      rw [he]
      cases hcc : cc <;> simp

theorem finish_outcome_applied (env : ImportEnv) (st : ImportState)
    (block : BlockImportParams) (g : InnerGuard) (a : AppliedChanges) (dp : Bool) :
    outcome_applied_changes (make_authorities_changes_finish env st block g a dp).1 = a := by
  unfold make_authorities_changes_finish InnerGuard.consume
  cases hgo : g.old with
  | none => rfl
  | some o => rfl

/-- C9: when justification processing fails during `import_block`
(the handler returns an error for the stripped justification on every
state and enacts-change flag): if needs-justification or the
enacts-consensus-change flag holds, the error is not propagated and the
returned aux has both `bad_justification` and `needs_justification` set;
otherwise the error is swallowed with no aux flag set; in either case
`import_block` still returns `Imported(imported_aux)`. -/
theorem justification_failure_aux_flags (env : ImportEnv)
    (block : BlockImportParams) (new_cache : List (Nat × List Nat)) (st : ImportState)
    (pcs : PendingSetChanges) (b1 : BlockImportParams) (st1 : ImportState)
    (aux : ImportedAux) (j : Justification)
    (hs : env.status block.post_hash = Except.ok BlockStatus.Unknown)
    (hm : make_authorities_changes env st block block.post_hash
        (decide (block.origin = BlockOrigin.NetworkInitialSync)) =
      (Outcome.ok pcs, b1, st1))
    (hnsf : pcs.applied_changes ≠ AppliedChanges.Standard false)
    (hj : b1.justification = some j)
    (hi : env.inner_import { b1 with justification := none } new_cache =
      Except.ok (ImportResult.Imported aux))
    (hfail : ∀ s nj, ∃ e,
      (import_justification env s block.post_hash block.header.number j nj
        (decide (block.origin = BlockOrigin.NetworkInitialSync))).1 = Outcome.err e) :
    (import_block env block new_cache st).1 =
      Outcome.ok (ImportResult.Imported
        { clear_justification_requests :=
            aux.clear_justification_requests || pcs.applied_changes.is_forced
          needs_justification :=
            aux.needs_justification ||
              (pcs.applied_changes.needs_justification || !new_cache.isEmpty)
          bad_justification :=
            aux.bad_justification ||
              (pcs.applied_changes.needs_justification || !new_cache.isEmpty) }) := by
  rw [import_block_success_path env block new_cache st pcs b1 st1 aux hs hm hi, hj]
  exact post_just_fail env { st1 with inner_import_calls := st1.inner_import_calls + 1 }
    block.post_hash block.header.number pcs aux j (!new_cache.isEmpty)
    (decide (block.origin = BlockOrigin.NetworkInitialSync)) hnsf hfail

/-- C9 witness: a concrete run with a failing verifier on a block with
cache updates returns `Imported` with both flags set and no error. -/
theorem justification_failure_aux_flags_witness :
    (import_block c9_env w_plain_block [(1, [1])] base_state).1 =
      Outcome.ok (ImportResult.Imported
        { clear_justification_requests := false
          needs_justification := true
          bad_justification := true }) :=
  justification_failure_aux_flags c9_env w_plain_block [(1, [1])] base_state
    c9_pcs w_plain_block base_state default_imported_aux [1, 2, 3]
    rfl (by decide) (by decide) rfl rfl
    (fun s nj => ⟨ConsensusError.ClientImport "bad justification", rfl⟩)

/-- C7: for every block whose change resolution succeeds, the pause flag
is set exactly when the pending change derived from the block is
best-delayed (a forced change); and for every successfully imported
block that sends both commands, the `Pause` voter command is sent
strictly before the `ChangeAuthorities` command. -/
theorem pause_iff_forced_and_order :
    (∀ (env : ImportEnv) (st : ImportState) (block : BlockImportParams)
        (hash : BlockHash) (isync : Bool) (pcs : PendingSetChanges)
        (b1 : BlockImportParams) (st1 : ImportState),
      make_authorities_changes env st block hash isync = (Outcome.ok pcs, b1, st1) →
      pcs.do_pause =
        (match check_new_change env.hard_forks block.header hash with
          | some c =>
            (match c.delay_kind with
              | DelayKind.Best _ => true
              | DelayKind.Finalized => false)
          | none => false)) ∧
    (∀ (env : ImportEnv) (block : BlockImportParams)
        (new_cache : List (Nat × List Nat)) (st : ImportState)
        (pcs : PendingSetChanges) (b1 : BlockImportParams) (st1 : ImportState)
        (aux : ImportedAux) (new_set : NewAuthoritySet),
      env.status block.post_hash = Except.ok BlockStatus.Unknown →
      make_authorities_changes env st block block.post_hash
          (decide (block.origin = BlockOrigin.NetworkInitialSync)) =
        (Outcome.ok pcs, b1, st1) →
      pcs.do_pause = true →
      pcs.applied_changes = AppliedChanges.Forced new_set →
      env.inner_import { b1 with justification := none } new_cache =
        Except.ok (ImportResult.Imported aux) →
      ∃ tail,
        (import_block env block new_cache st).2.voter_commands =
          st.voter_commands ++
            VoterCommand.Pause "Forced change scheduled after inactivity" ::
              VoterCommand.ChangeAuthorities new_set :: tail) := by
  constructor
  · exact fun env st block hash isync pcs b1 st1 hm =>
      mac_do_pause env st block hash isync pcs b1 st1 hm
  · intro env block new_cache st pcs b1 st1 aux new_set hs hm hdp ha hi
    rw [import_block_success_path env block new_cache st pcs b1 st1 aux hs hm hi]
    obtain ⟨tail, htail⟩ := post_voters env
      { st1 with inner_import_calls := st1.inner_import_calls + 1 }
      block.post_hash block.header.number pcs aux b1.justification (!new_cache.isEmpty)
      (decide (block.origin = BlockOrigin.NetworkInitialSync)) new_set hdp ha
    refine ⟨tail, ?_⟩
    rw [htail]
    have hfacts := mac_facts env st block block.post_hash
      (decide (block.origin = BlockOrigin.NetworkInitialSync))
    rw [hm] at hfacts
    have hv : st1.voter_commands = st.voter_commands := hfacts.1
    dsimp only
    rw [hv]

/-- C7 witness: a concrete forced-change (delay 0) import pauses the
voter and emits `Pause` strictly before `ChangeAuthorities`; the pause
flag agrees with the best-delayed pending change. -/
theorem pause_iff_forced_and_order_witness :
    c7_pcs.do_pause = true ∧
    (∃ tail,
      (import_block c7_env c7_block [] base_state).2.voter_commands =
        base_state.voter_commands ++
          VoterCommand.Pause "Forced change scheduled after inactivity" ::
            VoterCommand.ChangeAuthorities c7_new :: tail) :=
  ⟨pause_iff_forced_and_order.1 c7_env base_state c7_block 21 false c7_pcs c7_b1 c7_st1
      (by decide),
   pause_iff_forced_and_order.2 c7_env c7_block [] base_state c7_pcs c7_b1 c7_st1
      default_imported_aux c7_new rfl (by decide) (by decide) (by decide) rfl⟩

/-- C6: when `apply_forced_changes` yields a new set with median hint
`median`, the canon block of the emitted `NewAuthoritySet` is the header
at `min(finalized_number, median)`; if that header is missing the step
panics (the `expect`); and after a successful inner import the voter
receives `ChangeAuthorities` with that descriptor and the imported aux
has `clear_justification_requests` set. -/
theorem forced_change_canon_block_and_voter_signal :
    (∀ (env : ImportEnv) (st : ImportState) (block : BlockImportParams)
        (hash : BlockHash) (isync : Bool) (number : BlockNumber)
        (is_desc : BlockHash → BlockHash → Bool) (g : InnerGuard) (dp : Bool)
        (median : BlockNumber) (new_set : AuthoritySet),
      env.apply_forced_changes g.live hash number is_desc isync =
        Except.ok (some (median, new_set)) →
      env.header_by_number (min env.info_finalized_number median) = Except.ok none →
      (make_authorities_changes_apply env st block hash isync number is_desc g dp).1 =
        Outcome.panicked "the given block number is less or equal than the current best finalized number; current best finalized number must exist in chain; qed.") ∧
    (∀ (env : ImportEnv) (st : ImportState) (block : BlockImportParams)
        (hash : BlockHash) (isync : Bool) (number : BlockNumber)
        (is_desc : BlockHash → BlockHash → Bool) (g : InnerGuard) (dp : Bool)
        (median : BlockNumber) (new_set : AuthoritySet) (hdr : BlockHeader),
      env.apply_forced_changes g.live hash number is_desc isync =
        Except.ok (some (median, new_set)) →
      env.header_by_number (min env.info_finalized_number median) =
        Except.ok (some hdr) →
      outcome_applied_changes
          (make_authorities_changes_apply env st block hash isync number is_desc g dp).1 =
        AppliedChanges.Forced
          { canon_number := min env.info_finalized_number median
            canon_hash := hdr.hash
            set_id := new_set.set_id
            authorities := new_set.current_authorities }) ∧
    (∀ (env : ImportEnv) (block : BlockImportParams)
        (new_cache : List (Nat × List Nat)) (st : ImportState)
        (pcs : PendingSetChanges) (b1 : BlockImportParams) (st1 : ImportState)
        (aux : ImportedAux) (new_set : NewAuthoritySet),
      env.status block.post_hash = Except.ok BlockStatus.Unknown →
      make_authorities_changes env st block block.post_hash
          (decide (block.origin = BlockOrigin.NetworkInitialSync)) =
        (Outcome.ok pcs, b1, st1) →
      pcs.applied_changes = AppliedChanges.Forced new_set →
      env.inner_import { b1 with justification := none } new_cache =
        Except.ok (ImportResult.Imported aux) →
      outcome_is_imported (import_block env block new_cache st).1 = true ∧
      outcome_clear_flag (import_block env block new_cache st).1 = true ∧
      VoterCommand.ChangeAuthorities new_set ∈
        (import_block env block new_cache st).2.voter_commands) := by
  refine ⟨?_, ?_, ?_⟩
  · intro env st block hash isync number is_desc g dp median new_set happ hh
    unfold make_authorities_changes_apply
    rw [happ]
    dsimp only
    rw [hh]
  · intro env st block hash isync number is_desc g dp median new_set hdr happ hh
    unfold make_authorities_changes_apply
    rw [happ]
    dsimp only
    rw [hh]
    dsimp only
    exact finish_outcome_applied env st block _ _ dp
  · intro env block new_cache st pcs b1 st1 aux new_set hs hm ha hi
    rw [import_block_success_path env block new_cache st pcs b1 st1 aux hs hm hi]
    exact post_forced env { st1 with inner_import_calls := st1.inner_import_calls + 1 }
      block.post_hash block.header.number pcs aux b1.justification (!new_cache.isEmpty)
      (decide (block.origin = BlockOrigin.NetworkInitialSync)) new_set ha

/-- C6 witness: in the concrete forced-change scenario the canon header
is taken at `min 7 3 = 3`; a missing header panics; a present header
yields the forced descriptor; and the full import sets the clear flag
and sends `ChangeAuthorities`. -/
theorem forced_change_canon_block_and_voter_signal_witness :
    (make_authorities_changes_apply c6_panic_env base_state w_plain_block 20 false 6
        (fun _ _ => false) { old := none, live := base_set } false).1 =
      Outcome.panicked "the given block number is less or equal than the current best finalized number; current best finalized number must exist in chain; qed." ∧
    outcome_applied_changes
        (make_authorities_changes_apply c6_env base_state w_plain_block 20 false 6
          (fun _ _ => false) { old := none, live := base_set } false).1 =
      AppliedChanges.Forced c6_new ∧
    outcome_is_imported (import_block c6_env w_plain_block [] base_state).1 = true ∧
    outcome_clear_flag (import_block c6_env w_plain_block [] base_state).1 = true ∧
    VoterCommand.ChangeAuthorities c6_new ∈
      (import_block c6_env w_plain_block [] base_state).2.voter_commands :=
  ⟨forced_change_canon_block_and_voter_signal.1 c6_panic_env base_state w_plain_block
      20 false 6 (fun _ _ => false) { old := none, live := base_set } false 3 c6_new_set
      rfl rfl,
   forced_change_canon_block_and_voter_signal.2.1 c6_env base_state w_plain_block
      20 false 6 (fun _ _ => false) { old := none, live := base_set } false 3 c6_new_set
      (simple_header_oracle 3) rfl rfl,
   forced_change_canon_block_and_voter_signal.2.2 c6_env w_plain_block [] base_state
      c6_pcs c6_b1 c6_st1 default_imported_aux c6_new rfl (by decide) (by decide) rfl⟩

/-- C8 witness: a concrete dependent standard change import with an
attached justification never invokes the justification handler. -/
theorem standard_false_drops_justification_witness :
    (import_block c8_env w_plain_block [] base_state).2.justification_import_calls =
      base_state.justification_import_calls :=
  standard_false_drops_justification c8_env w_plain_block [] base_state c8_pcs
    w_plain_block base_state default_imported_aux rfl (by decide) (by decide) rfl

/-- C4 counterexample: a concrete block whose digest carries both a
forced change (delay 5, so not yet effective) and a scheduled change,
with no hard-fork override and no previously pending changes, makes the
change-processing step yield `AppliedChanges.None`, not `Forced`,
refuting the claim as stated. -/
theorem both_changes_not_forced_counterexample :
    (find_forced_change c4_block.header).isSome = true ∧
    (find_scheduled_change c4_block.header).isSome = true ∧
    c4_env.hard_forks 77 = none ∧
    (make_authorities_changes c4_env base_state c4_block 77 false).1 =
      Outcome.ok
        { just_in_case := some base_set
          applied_changes := AppliedChanges.None
          do_pause := true } := by
  refine ⟨by decide, by decide, rfl, by decide⟩

/-- C4 amended: when a block carries both a forced and a scheduled
change and no hard-fork override applies, the derived pending change is
the forced one (best-delayed; the scheduled signal is ignored); with no
previously pending changes, the change-processing step yields
`Forced(_)` exactly when the forced change is already effective at the
block (delay 0), and otherwise yields `AppliedChanges.None` — never
`Standard`. -/
theorem both_changes_forced_precedence_amended
    (median delayF : BlockNumber) (nextF nextS : AuthorityList)
    (n : BlockNumber) (parent hashB : BlockHash) (fin : BlockNumber)
    (hdrO : BlockNumber → BlockHeader)
    (inner : Except String ImportResult)
    (enc : AuthoritySet → Option NewAuthoritySet → List (List Nat × List Nat))
    (dec : Justification → BlockHash × BlockNumber → Nat → AuthorityList →
      Except String Justification)
    (finb : BlockHash → BlockNumber → Justification → FinalizeResult)
    (st : ImportState) (isync : Bool)
    (hstd : st.authority_set.pending_standard_changes = [])
    (hfrc : st.authority_set.pending_forced_changes = []) :
    (check_new_change
        (spec_env fin hdrO (fun _ => none) (fun _ _ => false) inner enc dec finb).hard_forks
        (c4_both_block median delayF nextF nextS n parent hashB).header hashB =
      some { next_authorities := nextF
             delay := delayF
             canon_height := n
             canon_hash := hashB
             delay_kind := DelayKind.Best median }) ∧
    (delayF = 0 →
      (make_authorities_changes
          (spec_env fin hdrO (fun _ => none) (fun _ _ => false) inner enc dec finb)
          st (c4_both_block median delayF nextF nextS n parent hashB) hashB isync).1 =
        Outcome.ok
          { just_in_case := some st.authority_set
            applied_changes := AppliedChanges.Forced
              { canon_number := min fin median
                canon_hash := (hdrO (min fin median)).hash
                set_id := st.authority_set.set_id + 1
                authorities := nextF }
            do_pause := true }) ∧
    (delayF ≠ 0 →
      (make_authorities_changes
          (spec_env fin hdrO (fun _ => none) (fun _ _ => false) inner enc dec finb)
          st (c4_both_block median delayF nextF nextS n parent hashB) hashB isync).1 =
        Outcome.ok
          { just_in_case := some st.authority_set
            applied_changes := AppliedChanges.None
            do_pause := true }) := by
  refine ⟨?_, ?_, ?_⟩
  · simp [check_new_change, spec_env, c4_both_block, find_forced_change,
      convert_first, DigestItem.try_to]
  · intro h0
    subst h0
    simp [make_authorities_changes, make_authorities_changes_apply,
      make_authorities_changes_finish, check_new_change, find_forced_change,
      find_scheduled_change, convert_first, DigestItem.try_to, spec_env,
      c4_both_block, spec_add_pending_change, spec_apply_forced_changes,
      spec_enacts_standard_change, InnerGuard.set_old, InnerGuard.consume,
      InnerGuard.drop_restore, PendingChange.effective_number, hstd, hfrc,
      AuthoritySet.current, same_fork]
  · intro hne
    have hle : ¬ (n + delayF ≤ n) := by
      intro h
      rw [add_le_iff_nonpos_right, Nat.le_zero] at h
      exact hne h
    simp [make_authorities_changes, make_authorities_changes_apply,
      make_authorities_changes_finish, check_new_change, find_forced_change,
      find_scheduled_change, convert_first, DigestItem.try_to, spec_env,
      c4_both_block, spec_add_pending_change, spec_apply_forced_changes,
      spec_enacts_standard_change, InnerGuard.set_old, InnerGuard.consume,
      InnerGuard.drop_restore, PendingChange.effective_number, hstd, hfrc,
      AuthoritySet.current, same_fork, hle]

/-- C4 witness: with the concrete both-signal block the derived change
is the forced one; with delay 0 the step yields `Forced` (canon number
`min 10 1 = 1`), with delay 5 it yields `None`. -/
theorem both_changes_forced_precedence_amended_witness :
    (check_new_change c4_env.hard_forks
        (c4_both_block 1 5 [(3, 1)] [(4, 1)] 50 49 77).header 77 =
      some { next_authorities := [(3, 1)]
             delay := 5
             canon_height := 50
             canon_hash := 77
             delay_kind := DelayKind.Best 1 }) ∧
    ((make_authorities_changes c4_env base_state
        (c4_both_block 1 0 [(3, 1)] [(4, 1)] 50 49 77) 77 false).1 =
      Outcome.ok
        { just_in_case := some base_set
          applied_changes := AppliedChanges.Forced
            { canon_number := 1, canon_hash := 1001, set_id := 1, authorities := [(3, 1)] }
          do_pause := true }) ∧
    ((make_authorities_changes c4_env base_state
        (c4_both_block 1 5 [(3, 1)] [(4, 1)] 50 49 77) 77 false).1 =
      Outcome.ok
        { just_in_case := some base_set
          applied_changes := AppliedChanges.None
          do_pause := true }) :=
  ⟨(both_changes_forced_precedence_amended 1 5 [(3, 1)] [(4, 1)] 50 49 77 10
      simple_header_oracle (Except.ok (ImportResult.Imported default_imported_aux))
      (fun _ _ => [([0], [1])]) (fun j _ _ _ => Except.ok j)
      (fun _ _ _ => FinalizeResult.Finalized) base_state false rfl rfl).1,
   (both_changes_forced_precedence_amended 1 0 [(3, 1)] [(4, 1)] 50 49 77 10
      simple_header_oracle (Except.ok (ImportResult.Imported default_imported_aux))
      (fun _ _ => [([0], [1])]) (fun j _ _ _ => Except.ok j)
      (fun _ _ _ => FinalizeResult.Finalized) base_state false rfl rfl).2.1 rfl,
   (both_changes_forced_precedence_amended 1 5 [(3, 1)] [(4, 1)] 50 49 77 10
      simple_header_oracle (Except.ok (ImportResult.Imported default_imported_aux))
      (fun _ _ => [([0], [1])]) (fun j _ _ _ => Except.ok j)
      (fun _ _ _ => FinalizeResult.Finalized) base_state false rfl rfl).2.2 (by decide)⟩

/-- C5 counterexample: importing a concrete block whose digest carries
`ScheduledChange{next=[V1,V2], delay=10}` with no justification and an
empty cache returns `Imported` with `needs_justification = false`, not
`true` as the claim states (a delay-10 scheduled change is not enacted
at the block that signals it, so `AppliedChanges.None` results). -/
theorem scheduled_change_scenario_counterexample :
    (import_block c5_cex_env (c5_block 100 (1, 1) (2, 1) 99 500) [] base_state).1 =
      Outcome.ok (ImportResult.Imported
        { clear_justification_requests := false
          needs_justification := false
          bad_justification := false }) := by decide

/-- C5 amended: importing a block whose digest contains
`ScheduledChange{next=[V1,V2], delay=10}`, with no justification, empty
cache and no previously pending changes, adds one pending standard
change with effective number `B.number + 10`, returns `Imported(aux)`
with `needs_justification = false` (and every other aux flag false),
sends no voter commands, and the aux side-channel contains the updated
set encoding. -/
theorem scheduled_change_scenario_amended
    (n : BlockNumber) (v1 v2 : AuthorityId × Nat) (parent hashB : BlockHash)
    (enc : AuthoritySet → Option NewAuthoritySet → List (List Nat × List Nat))
    (st : ImportState)
    (hstd : st.authority_set.pending_standard_changes = [])
    (hfrc : st.authority_set.pending_forced_changes = []) :
    (import_block (c5_env enc) (c5_block n v1 v2 parent hashB) [] st).1 =
      Outcome.ok (ImportResult.Imported default_imported_aux) ∧
    (import_block (c5_env enc) (c5_block n v1 v2 parent hashB) [] st).2.authority_set.pending_standard_changes =
      [c5_change n v1 v2 hashB] ∧
    (c5_change n v1 v2 hashB).effective_number = n + 10 ∧
    (import_block (c5_env enc) (c5_block n v1 v2 parent hashB) [] st).2.voter_commands =
      st.voter_commands ∧
    (import_block (c5_env enc) (c5_block n v1 v2 parent hashB) [] st).2.aux_writes =
      st.aux_writes ++
        (enc { st.authority_set with pending_standard_changes := [c5_change n v1 v2 hashB] }
          none).map (fun kv => (kv.1, some kv.2)) := by
  have h10 : ((n + 10 : BlockNumber) == n) = false := by
    simp [add_right_eq_self]
  refine ⟨?_, ?_, rfl, ?_, ?_⟩ <;>
    simp [import_block, import_block_post, make_authorities_changes,
      make_authorities_changes_apply, make_authorities_changes_finish,
      check_new_change, find_forced_change, find_scheduled_change, convert_first,
      DigestItem.try_to, spec_env, c5_env, c5_block, c5_change,
      spec_add_pending_change, spec_apply_forced_changes, spec_enacts_standard_change,
      InnerGuard.set_old, InnerGuard.consume, InnerGuard.drop_restore,
      PendingSetChanges.defuse, PendingChange.effective_number,
      AppliedChanges.needs_justification, default_imported_aux,
      hstd, hfrc, h10, AuthoritySet.current, same_fork]

/-- C5 witness: a concrete delay-10 scheduled-change import adds the
pending change (effective 40 + 10 = 50), returns `Imported` with all
flags false, sends no voter command and writes the set encoding. -/
theorem scheduled_change_scenario_amended_witness :
    (import_block (c5_env (fun _ _ => [([9], [10])]))
        (c5_block 40 (11, 1) (12, 1) 41 600) [] base_state).1 =
      Outcome.ok (ImportResult.Imported default_imported_aux) ∧
    (import_block (c5_env (fun _ _ => [([9], [10])]))
        (c5_block 40 (11, 1) (12, 1) 41 600) [] base_state).2.authority_set.pending_standard_changes =
      [c5_change 40 (11, 1) (12, 1) 600] ∧
    (c5_change 40 (11, 1) (12, 1) 600).effective_number = 50 ∧
    (import_block (c5_env (fun _ _ => [([9], [10])]))
        (c5_block 40 (11, 1) (12, 1) 41 600) [] base_state).2.voter_commands = [] ∧
    (import_block (c5_env (fun _ _ => [([9], [10])]))
        (c5_block 40 (11, 1) (12, 1) 41 600) [] base_state).2.aux_writes =
      [([9], some [10])] :=
  scheduled_change_scenario_amended 40 (11, 1) (12, 1) 41 600
    (fun _ _ => [([9], [10])]) base_state rfl rfl
